import Mathlib

/-!
Verification of the support-agent pipeline in `src/main.py`.

The file shallowly embeds the two core pieces of the program:

* `extract_text` (src/main.py lines 34-155), the defensive cascade turning an
  arbitrary call-result value into a string, and

* `run_support_flow` (src/main.py lines 210-266), the orchestrator that runs
  triage, keyword fallback, agent selection, the responder stage, the guardrail
  stage, and a single error boundary.

Python values that can reach `extract_text` are modelled by the inductive
`PyVal`: `None`, strings, dicts (string keys), lists/tuples, and opaque
objects.  An opaque object carries its attribute table (what `getattr` can
see) and the string returned by `str()`.  Python dicts expose their keys via
`[]`/`in`, not via `getattr`; plain values (`str`, `dict`, `list`, `None`)
expose none of the probed attributes.  Operations that can raise in Python
(`json.dumps` on unserializable data, iteration of a non-iterable, `.strip()`
on a non-string) are embedded in `Except Unit`, and each `try/except: pass`
of the source is an explicit match on that result.  Dict fields and list
items are given by the mutually inductive `PyFields`/`PyItems` (isomorphic to
association lists / lists) so that all recursion stays structural.
-/

mutual
/-- Model of a Python value reaching the extractor: `None`, `str`, `dict`
(string keys, insertion order), `list`/`tuple`, or an opaque object with an
attribute table and a fixed `str()` representation. -/
inductive PyVal where
  | none
  | str (s : String)
  | dict (fields : PyFields)
  | list (items : PyItems)
  | obj (attrs : PyFields) (rep : String)
/-- Ordered key/value bindings of a dict (or attribute table of an object). -/
inductive PyFields where
  | nil
  | cons (key : String) (val : PyVal) (rest : PyFields)
/-- Ordered items of a list/tuple. -/
inductive PyItems where
  | nil
  | cons (val : PyVal) (rest : PyItems)
end

/-- Build dict fields from an association list (notation helper). -/
def PyFields.ofList : List (String × PyVal) → PyFields
  | [] => PyFields.nil
  | (k, v) :: rest => PyFields.cons k v (PyFields.ofList rest)

/-- Build list items from a list (notation helper). -/
def PyItems.ofList : List PyVal → PyItems
  | [] => PyItems.nil
  | v :: rest => PyItems.cons v (PyItems.ofList rest)

/-- The items of a list value, as a `List` (used to model iteration). -/
def PyItems.toList : PyItems → List PyVal
  | PyItems.nil => []
  | PyItems.cons v rest => v :: rest.toList

/-- The keys of a dict, in order (Python iteration over a dict). -/
def PyFields.keys : PyFields → List String
  | PyFields.nil => []
  | PyFields.cons k _ rest => k :: rest.keys

/-- Join a list of strings with a separator (Python `sep.join(parts)`). -/
def joinWith (sep : String) : List String → String
  | [] => ""
  | [x] => x
  | x :: y :: rest => x ++ sep ++ joinWith sep (y :: rest)

/-- Characters removed by Python `str.strip()` (whitespace). -/
def pySpace (c : Char) : Bool := c.isWhitespace

/-- Remove leading and trailing whitespace from a character list. -/
def trimChars (l : List Char) : List Char :=
  ((l.dropWhile pySpace).reverse.dropWhile pySpace).reverse

/-- Python `s.strip()`. -/
def pyStrip (s : String) : String := String.mk (trimChars s.data)

/-- Python `s.lower()` (ASCII case folding, as used by the keyword
and marker checks of the source). -/
def pyLower (s : String) : String := String.mk (s.data.map Char.toLower)

/-- Helper for `pyIn`: does `p` occur as a contiguous run inside the second
argument? -/
def pyInAux (p : List Char) : List Char → Bool
  | [] => p.isEmpty
  | c :: rest => p.isPrefixOf (c :: rest) || pyInAux p rest

/-- Python substring containment `pat in s`. -/
def pyIn (pat s : String) : Bool := pyInAux pat.data s.data

/-- Helper for `pyWordCount`: count maximal non-whitespace runs.  The flag
records whether the previous character was inside a word. -/
def countWordsAux : List Char → Bool → Nat
  | [], _ => 0
  | c :: rest, inWord =>
    if pySpace c then countWordsAux rest false
    else (if inWord then 0 else 1) + countWordsAux rest true

/-- Python `len(s.split())`: number of whitespace-separated words. -/
def pyWordCount (s : String) : Nat := countWordsAux s.data false

/-- Escape one character as Python `json.dumps` renders it inside a string
literal (the characters relevant to this model; `ensure_ascii` escaping of
other code points is not modelled). -/
def jsonEscape (c : Char) : String :=
  if c = '"' then "\\\""
  else if c = '\\' then "\\\\"
  else if c = '\n' then "\\n"
  else if c = '\t' then "\\t"
  else if c = '\r' then "\\r"
  else String.mk [c]

/-- Python `json.dumps` of a string value. -/
def jsonQuote (s : String) : String :=
  "\"" ++ joinWith "" (s.data.map jsonEscape) ++ "\""

mutual
/-- Python `json.dumps` (used at src/main.py lines 67 and 150).  Serialization
raises `TypeError` (here `Except.error ()`) exactly on values containing an
opaque object. -/
def jsonDumps : PyVal → Except Unit String
  | PyVal.none => Except.ok "null"
  | PyVal.str s => Except.ok (jsonQuote s)
  | PyVal.obj _ _ => Except.error ()
  | PyVal.dict fs =>
    (jsonFields fs).map fun ps => "\x7b" ++ joinWith ", " ps ++ "\x7d"
  | PyVal.list xs =>
    (jsonItems xs).map fun ps => "[" ++ joinWith ", " ps ++ "]"
/-- Serialize each dict binding as `"key": value`, raising if any fails. -/
def jsonFields : PyFields → Except Unit (List String)
  | PyFields.nil => Except.ok []
  | PyFields.cons k v rest =>
    match jsonDumps v, jsonFields rest with
    | Except.ok s, Except.ok tail => Except.ok ((jsonQuote k ++ ": " ++ s) :: tail)
    | _, _ => Except.error ()
/-- Serialize each list item, raising if any fails. -/
def jsonItems : PyItems → Except Unit (List String)
  | PyItems.nil => Except.ok []
  | PyItems.cons v rest =>
    match jsonDumps v, jsonItems rest with
    | Except.ok s, Except.ok tail => Except.ok (s :: tail)
    | _, _ => Except.error ()
end

mutual
/-- Python `repr` for the modelled values (quote escaping inside `repr` of
strings is not modelled; no claim depends on it).  An opaque object yields
its stored representation. -/
def pyRepr : PyVal → String
  | PyVal.none => "None"
  | PyVal.str s => "\x27" ++ s ++ "\x27"
  | PyVal.obj _ r => r
  | PyVal.dict fs => "\x7b" ++ joinWith ", " (reprFields fs) ++ "\x7d"
  | PyVal.list xs => "[" ++ joinWith ", " (reprItems xs) ++ "]"
/-- Render dict bindings in the quoted-key form used by Python repr. -/
def reprFields : PyFields → List String
  | PyFields.nil => []
  | PyFields.cons k v rest => ("\x27" ++ k ++ "\x27: " ++ pyRepr v) :: reprFields rest
/-- Render list items. -/
def reprItems : PyItems → List String
  | PyItems.nil => []
  | PyItems.cons v rest => pyRepr v :: reprItems rest
end

/-- Python `str(v)`: identity on strings, `repr` otherwise. -/
def pyStr : PyVal → String
  | PyVal.str s => s
  | v => pyRepr v

/-- First binding of a key in a dict (Python `d[k]` / `d.get(k)`). -/
def dictGet : PyFields → String → Option PyVal
  | PyFields.nil, _ => Option.none
  | PyFields.cons k v rest, key => if k = key then some v else dictGet rest key

/-- Python `getattr(v, a)` guarded by `hasattr`: only opaque objects expose
the probed attributes (dict keys are not attributes). -/
def pyGetAttr : PyVal → String → Option PyVal
  | PyVal.obj attrs _, a => dictGet attrs a
  | _, _ => Option.none

/-- The ordered attribute list probed first by `extract_text`
(src/main.py lines 44-53). -/
def candidate_attrs : List String :=
  ["output_text", "final_output_text", "final_output", "output",
   "text", "reply", "result", "response"]

/-- Sub-key priority probe inside a dict-valued attribute
(src/main.py lines 62-64): first key bound to a non-blank string wins. -/
def probeSubKeys : List String → PyFields → Option String
  | [], _ => Option.none
  | k :: ks, fs =>
    match dictGet fs k with
    | some (PyVal.str s) =>
      if pyStrip s = "" then probeSubKeys ks fs else some (pyStrip s)
    | _ => probeSubKeys ks fs

/-- Texts collected from a dict element of a list-valued attribute
(src/main.py lines 79-81): the inner `for` has no break, so every matching
key contributes. -/
def dictItemTexts (fs : PyFields) : List String :=
  ["text", "content", "message"].filterMap fun k =>
    match dictGet fs k with
    | some (PyVal.str s) => if pyStrip s = "" then Option.none else some (pyStrip s)
    | _ => Option.none

/-- Texts collected from a list-valued attribute (src/main.py lines 74-81):
non-blank strings, plus recognized sub-fields of dict elements. -/
def listItemTexts : List PyVal → List String
  | [] => []
  | PyVal.str s :: rest =>
    (if pyStrip s = "" then [] else [pyStrip s]) ++ listItemTexts rest
  | PyVal.dict fs :: rest => dictItemTexts fs ++ listItemTexts rest
  | _ :: rest => listItemTexts rest

/-- Handling of one probed attribute value (src/main.py lines 56-83): a
non-blank string is returned stripped; a dict is searched by sub-key and
otherwise JSON-serialized (the serialization failure is swallowed by the
`try/except` at lines 66-71); a list yields its collected texts joined by
newlines.  `Option.none` means "keep probing". -/
def attrValProbe : PyVal → Option String
  | PyVal.str s => if pyStrip s = "" then Option.none else some (pyStrip s)
  | PyVal.dict fs =>
    match probeSubKeys ["text", "content", "message", "reply"] fs with
    | some s => some s
    | Option.none =>
      match jsonDumps (PyVal.dict fs) with
      | Except.ok s => if s = "" then Option.none else some s
      | Except.error _ => Option.none
  | PyVal.list xs =>
    match listItemTexts xs.toList with
    | [] => Option.none
    | ts => some (joinWith "\n" ts)
  | _ => Option.none

/-- Step 1 of the cascade (src/main.py lines 54-83): walk `candidate_attrs`,
returning the first usable text. -/
def probeAttrs : List String → PyVal → Option String
  | [], _ => Option.none
  | a :: rest, v =>
    match pyGetAttr v a with
    | Option.none => probeAttrs rest v
    | some val =>
      match attrValProbe val with
      | some s => some s
      | Option.none => probeAttrs rest v

/-- Python iteration over a value (src/main.py line 90, `for m in msgs`):
lists iterate their items, strings their characters, dicts their keys;
`None` and opaque objects raise `TypeError`. -/
def pyIterE : PyVal → Except Unit (List PyVal)
  | PyVal.list xs => Except.ok xs.toList
  | PyVal.str s => Except.ok (s.data.map fun c => PyVal.str (String.mk [c]))
  | PyVal.dict fs => Except.ok (fs.keys.map PyVal.str)
  | _ => Except.error ()

/-- Fragments of a dict-style message whose `content` is a list
(src/main.py lines 97-105).  `c["text"]` / `c["content"]` are only read when
they are strings, so this loop cannot raise. -/
def dictMsgFragments : List PyVal → List String
  | [] => []
  | PyVal.dict fs :: rest =>
    (match dictGet fs "text" with
     | some (PyVal.str s) => [pyStrip s]
     | _ =>
       match dictGet fs "content" with
       | some (PyVal.str s) => [pyStrip s]
       | _ => []) ++ dictMsgFragments rest
  | PyVal.str s :: rest =>
    (if pyStrip s = "" then [] else [pyStrip s]) ++ dictMsgFragments rest
  | _ :: rest => dictMsgFragments rest

/-- Fragments of an object-style message whose `content` attribute is a list
(src/main.py lines 112-117).  `cc["text"].strip()` at line 115 is applied
without an `isinstance` check, so a dict fragment binding `"text"` to a
non-string raises (`Except.error`), aborting the whole messages probe. -/
def objMsgFragments : List PyVal → Except Unit (List String)
  | [] => Except.ok []
  | PyVal.dict fs :: rest =>
    (match dictGet fs "text" with
     | some (PyVal.str s) => (objMsgFragments rest).map fun ts => pyStrip s :: ts
     | some _ => Except.error ()
     | Option.none => objMsgFragments rest)
  | PyVal.str s :: rest =>
    if pyStrip s = "" then objMsgFragments rest
    else (objMsgFragments rest).map fun ts => pyStrip s :: ts
  | _ :: rest => objMsgFragments rest

/-- Texts contributed by one message (src/main.py lines 92-121): dict-style
messages read `m["content"]`; other messages try the `content` attribute,
else the `text` attribute. -/
def msgTexts : PyVal → Except Unit (List String)
  | PyVal.dict fs =>
    Except.ok
      (match dictGet fs "content" with
       | some (PyVal.str s) => if pyStrip s = "" then [] else [pyStrip s]
       | some (PyVal.list cs) => dictMsgFragments cs.toList
       | _ => [])
  | m =>
    match pyGetAttr m "content" with
    | some (PyVal.str s) => Except.ok (if pyStrip s = "" then [] else [pyStrip s])
    | some (PyVal.list cs) => objMsgFragments cs.toList
    | some _ => Except.ok []
    | Option.none =>
      match pyGetAttr m "text" with
      | some (PyVal.str s) => Except.ok (if pyStrip s = "" then [] else [pyStrip s])
      | _ => Except.ok []

/-- Concatenate the texts of all messages, propagating a raised exception
(src/main.py lines 89-121). -/
def msgListTexts : List PyVal → Except Unit (List String)
  | [] => Except.ok []
  | m :: rest =>
    match msgTexts m, msgListTexts rest with
    | Except.ok ts, Except.ok tail => Except.ok (ts ++ tail)
    | _, _ => Except.error ()

/-- Step 2 of the cascade (src/main.py lines 86-125): probe a `messages`
attribute; any exception during the traversal is swallowed by the
`try/except` and treated as "no result", as is an empty collection. -/
def step2Probe (v : PyVal) : Option String :=
  match pyGetAttr v "messages" with
  | Option.none => Option.none
  | some msgs =>
    match pyIterE msgs >>= msgListTexts with
    | Except.error _ => Option.none
    | Except.ok [] => Option.none
    | Except.ok ts => some (joinWith "\n" ts)

/-- Remainder of the text after the first occurrence of a marker
(the anchor search of `re.search` for a pattern with a literal prefix). -/
def afterFirst (m : List Char) : List Char → Option (List Char)
  | [] => if m.isEmpty then some [] else Option.none
  | c :: rest =>
    if m.isPrefixOf (c :: rest) then some ((c :: rest).drop m.length)
    else afterFirst m rest

/-- Does the text start with one of the terminators? -/
def startsWithOneOf (ts : List (List Char)) (l : List Char) : Bool :=
  ts.any fun t => t.isPrefixOf l

/-- Lazy capture `(.+?)` in DOTALL mode: the shortest non-empty prefix whose
remainder starts with one of the terminators — or, when `endOk` (the pattern
ends in `|$)`), whose remainder is the end of the string or a single trailing
newline. -/
def captureLazy (ts : List (List Char)) (endOk : Bool) (acc : List Char) :
    List Char → Option (List Char)
  | [] => if endOk && !acc.isEmpty then some acc.reverse else Option.none
  | c :: rest =>
    if !acc.isEmpty &&
        (startsWithOneOf ts (c :: rest) || (endOk && rest.isEmpty && c = '\n')) then
      some acc.reverse
    else captureLazy ts endOk (c :: acc) rest

/-- The first regex at src/main.py line 132 is written with doubled
backslashes, so it matches only text containing the *escaped* rendering
`Final output \(str\):\n\s...` with literal backslash characters; its
terminator alternation likewise requires literal `\n- `, `\n\(See` or `\Z`
text (no end-of-string branch). -/
def probeEscaped (s : String) : Option String :=
  match afterFirst "Final output \\(str\\):\\n\\".data s.data with
  | Option.none => Option.none
  | some rest =>
    match captureLazy ["\\n- ".data, "\\n\\(See".data, "\\Z".data] false []
        (rest.dropWhile fun c => c = 's') with
    | some cap => some (String.mk cap)
    | Option.none => Option.none

/-- The live patterns at src/main.py lines 135 and 138: literal marker, one
newline, greedy `\s*`, lazy capture up to `\n- `, `\n(See` or the end of the
string.  When everything after the marker is whitespace the regex backtracks
into `\s*` and captures the final whitespace character. -/
def probeMarker (marker : String) (s : String) : Option String :=
  match afterFirst marker.data s.data with
  | Option.none => Option.none
  | some rest =>
    match captureLazy ["\n- ".data, "\n(See".data] true []
        (rest.dropWhile pySpace) with
    | some cap => some (String.mk cap)
    | Option.none =>
      match rest.getLast? with
      | some c => some (String.mk [c])
      | Option.none => Option.none

/-- The cleanup at src/main.py line 143, `re.sub(r"\n\x7b2,\x7d", "\n\n", text)`:
each maximal run of two or more newlines collapses to exactly two. -/
def collapseNLAux : List Char → Nat → List Char
  | [], run => List.replicate (min run 2) '\n'
  | c :: rest, run =>
    if c = '\n' then collapseNLAux rest (run + 1)
    else List.replicate (min run 2) '\n' ++ c :: collapseNLAux rest 0

/-- Normalize blank-line runs in the captured block. -/
def collapseBlankRuns (s : String) : String := String.mk (collapseNLAux s.data 0)

/-- Step 3 of the cascade (src/main.py lines 129-146): the three pattern
probes on `str(run_result)`, in order, followed by strip and blank-line
normalization of the captured block. -/
def step3Probe (v : PyVal) : Option String :=
  let s := pyStr v
  match probeEscaped s with
  | some t => some (collapseBlankRuns (pyStrip t))
  | Option.none =>
    match probeMarker "Final output (str):\n" s with
    | some t => some (collapseBlankRuns (pyStrip t))
    | Option.none =>
      match probeMarker "Final output:\n" s with
      | some t => some (collapseBlankRuns (pyStrip t))
      | Option.none => Option.none

/-- The extractor `extract_text` (src/main.py lines 34-155), in an exception
semantics: `Except.ok` is a normal return, `Except.error` would be an
uncaught exception escaping to the caller.  Every fallible step of the source
(`json.dumps`, the messages traversal) sits inside a `try/except: pass`,
which appears here as the match arms that turn `Except.error`/`Option.none`
into proceeding with the next strategy; step 4 truncates the serialized form
to 10000 characters; step 5 is `str(run_result).strip()`. -/
def extract_text (v : PyVal) : Except Unit String :=
  match v with
  | PyVal.none => Except.ok ""
  | _ =>
    match probeAttrs candidate_attrs v with
    | some s => Except.ok s
    | Option.none =>
      match step2Probe v with
      | some s => Except.ok s
      | Option.none =>
        match step3Probe v with
        | some s => Except.ok s
        | Option.none =>
          match jsonDumps v with
          | Except.ok s => Except.ok (String.mk (s.data.take 10000))
          | Except.error _ => Except.ok (pyStrip (pyStr v))

/-- The string value of `extract_text` (well defined because the extractor
never raises; see `extract_text_ok`). -/
def extractS (v : PyVal) : String :=
  match extract_text v with
  | Except.ok s => s
  | Except.error _ => ""

/-- The five agents of src/main.py (lines 158-207), identified by role. -/
inductive AgentId where
  | triage
  | billing
  | technical
  | general
  | guardrail
deriving DecidableEq, Repr

/-- The request context built by the console loop (src/main.py line 273):
display name and premium flag. -/
structure Ctx where
  name : String
  is_premium : Bool

/-- A collaborator behavior: each `Runner.run(agent, input, run_config)`
either returns an envelope or raises; a raised exception is modelled by
`Except.error` carrying `str(e)`. -/
def CollabCall : Type := AgentId → String → Except String PyVal

/-- The billing keyword tuple of src/main.py line 222. -/
def billing_keywords : List String :=
  ["refund", "charge", "invoice", "payment", "transaction", "balance", "account"]

/-- The technical keyword tuple of src/main.py line 224. -/
def technical_keywords : List String :=
  ["crash", "error", "bug", "not open", "freeze", "install", "slow"]

/-- Rejection test of the triage output (src/main.py line 219): empty, more
than 50 words, or containing the leak marker `"runresult"` (the text is
lower-cased a second time there, mirroring the source). -/
def invalidTriage (triage_text : String) : Bool :=
  (triage_text == "") || decide (pyWordCount triage_text > 50) ||
    pyIn "runresult" (pyLower triage_text)

/-- Keyword fallback on the original user text (src/main.py lines 221-227). -/
def keywordFallback (user_input : String) : String :=
  let t := pyLower user_input
  if billing_keywords.any (fun k => pyIn k t) then "billing"
  else if technical_keywords.any (fun k => pyIn k t) then "technical"
  else "general"

/-- The classification step (src/main.py lines 218-227): lower-case the
extracted triage text; if it is rejected, replace it by the keyword
fallback. -/
def classifyOf (user_input extracted : String) : String :=
  let triage_text := pyLower extracted
  if invalidTriage triage_text then keywordFallback user_input else triage_text

/-- Agent selection (src/main.py lines 230-235): substring routing on the
triage label. -/
def selectAgent (triage_text : String) : AgentId :=
  if pyIn "bill" triage_text then AgentId.billing
  else if pyIn "tech" triage_text || pyIn "crash" triage_text ||
      pyIn "error" triage_text then AgentId.technical
  else AgentId.general

/-- The fixed safe fallback reply substituted when the responder output is
unusable (src/main.py lines 246-250). -/
def fallback_reply : String :=
  "I cannot access your private account here. To check your account balance, please sign into the web portal -> Account -> Balance, or contact billing support at billing@example.com with your account id."

/-- The responder-stage substitution (src/main.py lines 245-250): an empty or
leaking reply becomes the fixed safe fallback. -/
def respondStep (agent_reply : String) : String :=
  if (agent_reply == "") || pyIn "runresult" (pyLower agent_reply) then fallback_reply
  else agent_reply

/-- The guardrail-stage acceptance (src/main.py lines 260-261): an empty or
leaking review result is discarded in favour of the pre-review reply. -/
def guardStep (agent_reply final : String) : String :=
  if (final == "") || pyIn "runresult" (pyLower final) then agent_reply
  else final

/-- The error reply built by the boundary (src/main.py line 266). -/
def errorReply (e : String) : String :=
  "An internal error occurred while processing your request. (" ++ e ++ ")"

/-- The body of the `try` block of `run_support_flow` (src/main.py lines 211-263):
three collaborator calls in sequence, any raised exception propagating to
the boundary. -/
def flowBody (call : CollabCall) (user_input : String) : Except String String :=
  match call AgentId.triage user_input with
  | Except.error e => Except.error e
  | Except.ok triage_run =>
    match call (selectAgent (classifyOf user_input (extractS triage_run))) user_input with
    | Except.error e => Except.error e
    | Except.ok agent_run =>
      match call AgentId.guardrail (respondStep (extractS agent_run)) with
      | Except.error e => Except.error e
      | Except.ok guard_run =>
        Except.ok (guardStep (respondStep (extractS agent_run)) (extractS guard_run))

/-- The orchestrator `run_support_flow` (src/main.py lines 210-266): the
pipeline under one error boundary.  The context argument is accepted and
carried, exactly as in the source, but never read. -/
def run_support_flow (call : CollabCall) (user_input : String) (ctx : Ctx) : String :=
  match flowBody call user_input with
  | Except.ok s => s
  | Except.error e => errorReply e

/-- The category labels of the data model of the specification. -/
inductive Category where
  | Billing
  | Technical
  | General
deriving DecidableEq, Repr

/-- The label string the pipeline uses for each category. -/
def categoryLabel : Category → String
  | Category.Billing => "billing"
  | Category.Technical => "technical"
  | Category.General => "general"

/-- Stated from the words of the spec (section 4.2.3): the text contains one of
the billing keywords refund / charge / invoice / payment / transaction /
balance / account. -/
def specBillingHit (t : String) : Bool :=
  pyIn "refund" t || pyIn "charge" t || pyIn "invoice" t || pyIn "payment" t ||
    pyIn "transaction" t || pyIn "balance" t || pyIn "account" t

/-- Stated from the words of the spec (section 4.2.3): the text contains one of
the technical keywords crash / error / bug / "not open" / freeze / install /
slow. -/
def specTechnicalHit (t : String) : Bool :=
  pyIn "crash" t || pyIn "error" t || pyIn "bug" t || pyIn "not open" t ||
    pyIn "freeze" t || pyIn "install" t || pyIn "slow" t

/-- The reference fallback classification, stated from the words of the spec:
billing keywords first, then technical keywords, else General, all checked
against the lower-cased user text. -/
def refFallback (userText : String) : Category :=
  if specBillingHit (pyLower userText) then Category.Billing
  else if specTechnicalHit (pyLower userText) then Category.Technical
  else Category.General

/-- A deterministic stub reviewer that returns its input unchanged: the stub
agent echoes the candidate reply, and the runner hands the orchestrator a
RunResult-like envelope whose `final_output` attribute carries that text
(`final_output` is the field the agents SDK uses for the final text of an agent,
and is among `candidate_attrs`). -/
def stubReviewEnvelope (x : String) : PyVal :=
  PyVal.obj (PyFields.cons "final_output" (PyVal.str x) PyFields.nil) "RunResult()"

/-- The guardrail review step under the stub reviewer: call the reviewer,
extract text, and apply the pass-through check of src/main.py lines 252-263. -/
def reviewStub (x : String) : String :=
  guardStep x (extractS (stubReviewEnvelope x))

set_option maxRecDepth 8000

lemma errorReply_ne (e : String) : errorReply e ≠ "" := by
  intro h
  have h2 := congrArg String.length h
  simp [errorReply, String.length_append] at h2
  exact absurd h2.2 (by decide)

lemma respondStep_ne (x : String) : respondStep x ≠ "" := by
  unfold respondStep
  split
  · decide
  · next hcond =>
    intro hx
    subst hx
    simp at hcond

lemma guardStep_ne (a f : String) (ha : a ≠ "") : guardStep a f ≠ "" := by
  unfold guardStep
  split
  · exact ha
  · next hcond =>
    intro hf
    subst hf
    simp at hcond

lemma flowBody_ok_ne (call : CollabCall) (u s : String)
    (h : flowBody call u = Except.ok s) : s ≠ "" := by
  unfold flowBody at h
  split at h
  · simp at h
  · split at h
    · simp at h
    · split at h
      · simp at h
      · simp only [Except.ok.injEq] at h
        rw [← h]
        exact guardStep_ne _ _ (respondStep_ne _)

/-- C1: for every user text, every context, and every collaborator behavior
(returning any envelope or raising any exception), `run_support_flow` returns
a non-empty string; being a total function into `String` it never raises to
its caller. -/
theorem run_support_flow_nonempty (call : CollabCall) (u : String) (ctx : Ctx) :
    run_support_flow call u ctx ≠ "" := by
  unfold run_support_flow
  cases hf : flowBody call u with
  | ok s => exact flowBody_ok_ne call u s hf
  | error e => exact errorReply_ne e

/-- C2: for every input value, well-formed or malformed, `extract_text`
returns a string normally (`Except.ok`) — no exception escapes, because every
fallible operation of the source sits under a `try/except`. -/
theorem extract_text_total : ∀ v : PyVal, ∃ s : String, extract_text v = Except.ok s := by
  intro v
  cases v
  case none => exact ⟨"", rfl⟩
  all_goals
    unfold extract_text
  all_goals
    repeat' split
  all_goals
    exact ⟨_, rfl⟩

/-- C10: the context argument is never read anywhere in the pipeline: with
identical collaborator behavior, any two contexts give the same reply. -/
theorem context_never_read (call : CollabCall) (u : String) (ctx1 ctx2 : Ctx) :
    run_support_flow call u ctx1 = run_support_flow call u ctx2 := rfl

/-- C7: when any collaborator call inside the pipeline raises — at the triage
stage, at the responder stage, or at the guardrail stage (the three calls the
pipeline makes, src/main.py lines 213, 238 and 253) — the boundary at
src/main.py lines 265-266 catches it and returns the fixed error prefix with
the description of the fault; nothing is re-raised.  The disjunctive
hypothesis enumerates a fault at whichever of the three calls is the first to
raise in the run. -/
theorem collaborator_fault_error_reply (call : CollabCall) (u : String) (ctx : Ctx)
    (e : String)
    (h : call AgentId.triage u = Except.error e ∨
      (∃ env1, call AgentId.triage u = Except.ok env1 ∧
        call (selectAgent (classifyOf u (extractS env1))) u = Except.error e) ∨
      (∃ env1 env2, call AgentId.triage u = Except.ok env1 ∧
        call (selectAgent (classifyOf u (extractS env1))) u = Except.ok env2 ∧
        call AgentId.guardrail (respondStep (extractS env2)) = Except.error e)) :
    run_support_flow call u ctx = errorReply e := by
  rcases h with h1 | ⟨env1, h1, h2⟩ | ⟨env1, env2, h1, h2, h3⟩
  · simp only [run_support_flow, flowBody, h1]
  · simp only [run_support_flow, flowBody, h1, h2]
  · simp only [run_support_flow, flowBody, h1, h2, h3]

/-- Witness for C7 at a concrete collaborator that answers triage with a
billing label and then raises in the responder stage. -/
theorem collaborator_fault_error_reply_witness :
    run_support_flow (fun a _ => match a with
      | AgentId.triage => Except.ok
          (PyVal.obj (PyFields.cons "final_output" (PyVal.str "billing") PyFields.nil) "RunResult()")
      | AgentId.billing => Except.error "boom"
      | _ => Except.ok (PyVal.str "ok")) "hi" ⟨"u", false⟩ = errorReply "boom" :=
  collaborator_fault_error_reply _ "hi" ⟨"u", false⟩ "boom"
    (Or.inr (Or.inl ⟨PyVal.obj (PyFields.cons "final_output" (PyVal.str "billing")
      PyFields.nil) "RunResult()", rfl, rfl⟩))

/-- Counterexample for C3: a Python dict does not expose its keys as
attributes, so the envelope `\x7b"output_text": "Try reinstalling."\x7d` falls
through every probe and is returned as its JSON serialization (step 4), not
as the value of the field. -/
theorem extract_text_dict_counterexample :
    extract_text (PyVal.dict (PyFields.cons "output_text"
        (PyVal.str "Try reinstalling.") PyFields.nil))
      = Except.ok "\x7b\"output_text\": \"Try reinstalling.\"\x7d" ∧
    extract_text (PyVal.dict (PyFields.cons "output_text"
        (PyVal.str "Try reinstalling.") PyFields.nil))
      ≠ Except.ok "Try reinstalling." := by
  refine ⟨rfl, ?_⟩
  intro h
  rw [show extract_text (PyVal.dict (PyFields.cons "output_text"
        (PyVal.str "Try reinstalling.") PyFields.nil))
      = Except.ok "\x7b\"output_text\": \"Try reinstalling.\"\x7d" from rfl] at h
  simp only [Except.ok.injEq] at h
  exact absurd h (by decide)

/-- C3 as amended: when the envelope is an object exposing an `output_text`
attribute bound to the string `"Try reinstalling."`, `extract_text` returns
exactly `"Try reinstalling."` (whatever further attributes or representation
the object has). -/
theorem extract_text_output_text_attr (attrs : PyFields) (r : String) :
    extract_text (PyVal.obj (PyFields.cons "output_text"
        (PyVal.str "Try reinstalling.") attrs) r)
      = Except.ok "Try reinstalling." := rfl

lemma keywordFallback_eq_spec (user : String) :
    keywordFallback user = categoryLabel (refFallback user) := by
  have hb : billing_keywords.any (fun k => pyIn k (pyLower user))
      = specBillingHit (pyLower user) := by
    simp [billing_keywords, specBillingHit, Bool.or_assoc]
  have ht : technical_keywords.any (fun k => pyIn k (pyLower user))
      = specTechnicalHit (pyLower user) := by
    simp [technical_keywords, specTechnicalHit, Bool.or_assoc]
  unfold keywordFallback refFallback
  simp only [hb, ht]
  cases hx : specBillingHit (pyLower user) <;>
    cases hy : specTechnicalHit (pyLower user) <;>
      simp [hx, hy, categoryLabel]

/-- C4: whenever the triage output is rejected, the classification equals the
reference fallback of the spec (billing keywords first, then technical
keywords, else general, on the lower-cased original user text); in
particular billing wins when keywords of both kinds are present. -/
theorem classify_rejected_eq_reference (user extracted : String)
    (h : invalidTriage (pyLower extracted) = true) :
    classifyOf user extracted = categoryLabel (refFallback user) ∧
    (specBillingHit (pyLower user) = true ∧ specTechnicalHit (pyLower user) = true →
      classifyOf user extracted = "billing") := by
  have hc : classifyOf user extracted = keywordFallback user := by
    simp [classifyOf, h]
  constructor
  · rw [hc, keywordFallback_eq_spec]
  · rintro ⟨hbb, -⟩
    rw [hc, keywordFallback_eq_spec]
    unfold refFallback
    simp [hbb, categoryLabel]

/-- Witness for C4: an empty triage output on a text holding both a billing
and a technical keyword classifies as billing. -/
theorem classify_rejected_eq_reference_witness :
    invalidTriage (pyLower "") = true ∧
    classifyOf "please refund me, the app crashed" "" = "billing" :=
  ⟨by decide,
    (classify_rejected_eq_reference "please refund me, the app crashed" ""
      (by decide)).2 ⟨by decide, by decide⟩⟩

/-- C5: routing on a label text (applied by the pipeline to the lower-cased
label, hence case-insensitive in the original): `"bill"` selects the billing
responder even when technical substrings are present; otherwise `"tech"`,
`"crash"` or `"error"` select the technical responder; otherwise the general
responder is selected. -/
theorem routing_substring_priority (label : String) :
    (pyIn "bill" (pyLower label) = true →
      selectAgent (pyLower label) = AgentId.billing) ∧
    (pyIn "bill" (pyLower label) = true ∧ pyIn "tech" (pyLower label) = true →
      selectAgent (pyLower label) = AgentId.billing) ∧
    (pyIn "bill" (pyLower label) = false →
      (pyIn "tech" (pyLower label) || pyIn "crash" (pyLower label) ||
        pyIn "error" (pyLower label)) = true →
      selectAgent (pyLower label) = AgentId.technical) ∧
    (pyIn "bill" (pyLower label) = false →
      (pyIn "tech" (pyLower label) || pyIn "crash" (pyLower label) ||
        pyIn "error" (pyLower label)) = false →
      selectAgent (pyLower label) = AgentId.general) := by
  refine ⟨?_, ?_, ?_, ?_⟩
  · intro hb
    simp [selectAgent, hb]
  · rintro ⟨hb, -⟩
    simp [selectAgent, hb]
  · intro hb ht
    simp [selectAgent, hb, ht]
  · intro hb ht
    simp [selectAgent, hb, ht]

/-- Witness for C5: a label containing both `"BILL"` and `"tech"` routes to
the billing responder. -/
theorem routing_substring_priority_witness :
    pyIn "bill" (pyLower "BILLING tech issue") = true ∧
    selectAgent (pyLower "BILLING tech issue") = AgentId.billing :=
  ⟨by decide, (routing_substring_priority "BILLING tech issue").1 (by decide)⟩

/-- C6: when the text extracted from the result of the guardrail reviewer is empty
or contains the leak marker, the pipeline returns the pre-review candidate
reply unchanged — which is never empty. -/
theorem guardrail_fail_open (call : CollabCall) (u : String) (ctx : Ctx)
    (env1 env2 env3 : PyVal)
    (h1 : call AgentId.triage u = Except.ok env1)
    (h2 : call (selectAgent (classifyOf u (extractS env1))) u = Except.ok env2)
    (h3 : call AgentId.guardrail (respondStep (extractS env2)) = Except.ok env3)
    (h4 : ((extractS env3 == "") || pyIn "runresult" (pyLower (extractS env3))) = true) :
    run_support_flow call u ctx = respondStep (extractS env2) ∧
    respondStep (extractS env2) ≠ "" := by
  constructor
  · simp only [run_support_flow, flowBody, h1, h2, h3]
    simp [guardStep, h4]
  · exact respondStep_ne _

/-- Witness for C6: a concrete run in which the guardrail envelope is `None`
(extracting to the empty string) returns the candidate reply of the responder. -/
theorem guardrail_fail_open_witness :
    run_support_flow (fun a _ => match a with
      | AgentId.guardrail => Except.ok PyVal.none
      | _ => Except.ok (PyVal.obj (PyFields.cons "final_output"
          (PyVal.str "All good.") PyFields.nil) "RunResult()")) "help me" ⟨"u", true⟩
      = respondStep (extractS (PyVal.obj (PyFields.cons "final_output"
          (PyVal.str "All good.") PyFields.nil) "RunResult()")) ∧
    respondStep (extractS (PyVal.obj (PyFields.cons "final_output"
        (PyVal.str "All good.") PyFields.nil) "RunResult()")) ≠ "" :=
  guardrail_fail_open _ "help me" ⟨"u", true⟩
    (PyVal.obj (PyFields.cons "final_output" (PyVal.str "All good.") PyFields.nil) "RunResult()")
    (PyVal.obj (PyFields.cons "final_output" (PyVal.str "All good.") PyFields.nil) "RunResult()")
    PyVal.none rfl rfl rfl (by decide)

/-- C8: when the extracted responder text is empty or leaking, the
candidate reply is replaced by the one fixed safe fallback message, and the
rest of the pipeline runs on that same substitute, whatever responder
category was selected. -/
theorem responder_fixed_fallback (call : CollabCall) (u : String) (ctx : Ctx)
    (env1 env2 : PyVal)
    (h1 : call AgentId.triage u = Except.ok env1)
    (h2 : call (selectAgent (classifyOf u (extractS env1))) u = Except.ok env2)
    (h3 : ((extractS env2 == "") || pyIn "runresult" (pyLower (extractS env2))) = true) :
    respondStep (extractS env2) = fallback_reply ∧
    run_support_flow call u ctx =
      (match call AgentId.guardrail fallback_reply with
       | Except.ok env3 => guardStep fallback_reply (extractS env3)
       | Except.error e => errorReply e) := by
  have hr : respondStep (extractS env2) = fallback_reply := by
    simp [respondStep, h3]
  refine ⟨hr, ?_⟩
  simp only [run_support_flow, flowBody, h1, h2, hr]
  cases hg : call AgentId.guardrail fallback_reply <;> simp [hg]

/-- Witness for C8: a concrete run in which the responder envelope is `None`;
the guardrail stage is then invoked on the fixed fallback message. -/
theorem responder_fixed_fallback_witness :
    respondStep (extractS PyVal.none) = fallback_reply ∧
    run_support_flow (fun a _ => match a with
      | AgentId.guardrail => Except.ok (PyVal.obj (PyFields.cons "final_output"
          (PyVal.str "All good.") PyFields.nil) "RunResult()")
      | _ => Except.ok PyVal.none) "hello" ⟨"u", false⟩ =
      (match (fun (a : AgentId) (_ : String) => match a with
        | AgentId.guardrail => Except.ok (PyVal.obj (PyFields.cons "final_output"
            (PyVal.str "All good.") PyFields.nil) "RunResult()")
        | _ => Except.ok PyVal.none) AgentId.guardrail fallback_reply with
       | Except.ok env3 => guardStep fallback_reply (extractS env3)
       | Except.error e => errorReply e) :=
  responder_fixed_fallback _ "hello" ⟨"u", false⟩ PyVal.none PyVal.none rfl rfl (by decide)

lemma dropWhile_append_singleton (p : Char → Bool) (a : Char) (h : p a = false)
    (m : List Char) : (m ++ [a]).dropWhile p = m.dropWhile p ++ [a] := by
  induction m with
  | nil => simp [List.dropWhile_cons, h]
  | cons c t ih => by_cases hc : p c <;> simp [List.dropWhile_cons, hc, ih]

lemma dropWhile_self (p : Char → Bool) (l : List Char) :
    (l.dropWhile p).dropWhile p = l.dropWhile p := by
  induction l with
  | nil => rfl
  | cons c t ih => by_cases hc : p c <;> simp [List.dropWhile_cons, hc, ih]

lemma dropWhile_head_false (p : Char → Bool) (l : List Char) :
    ∀ a t, l.dropWhile p = a :: t → p a = false := by
  induction l with
  | nil => intro a t h; simp at h
  | cons c r ih =>
    intro a t h
    by_cases hc : p c
    · rw [List.dropWhile_cons, if_pos hc] at h
      exact ih a t h
    · rw [List.dropWhile_cons, if_neg hc] at h
      cases h
      simpa using hc

lemma trimChars_idem (l : List Char) : trimChars (trimChars l) = trimChars l := by
  cases hA : l.dropWhile pySpace with
  | nil =>
    have h0 : trimChars l = [] := by
      unfold trimChars
      rw [hA]
      rfl
    rw [h0]
    rfl
  | cons a A1 =>
    have ha : pySpace a = false := dropWhile_head_false pySpace l a A1 hA
    have h1 : trimChars l = a :: (A1.reverse.dropWhile pySpace).reverse := by
      unfold trimChars
      rw [hA, List.reverse_cons, dropWhile_append_singleton pySpace a ha,
        List.reverse_append]
      rfl
    have h2 : trimChars (a :: (A1.reverse.dropWhile pySpace).reverse)
        = a :: (A1.reverse.dropWhile pySpace).reverse := by
      unfold trimChars
      rw [List.dropWhile_cons, if_neg (by simp [ha]), List.reverse_cons,
        List.reverse_reverse, dropWhile_append_singleton pySpace a ha,
        dropWhile_self, List.reverse_append]
      rfl
    rw [h1, h2]

lemma pyStrip_idem (s : String) : pyStrip (pyStrip s) = pyStrip s := by
  show String.mk (trimChars (trimChars s.data)) = String.mk (trimChars s.data)
  rw [trimChars_idem]

lemma attrValProbe_str_blank (x : String) (h : pyStrip x = "") :
    attrValProbe (PyVal.str x) = Option.none := by
  simp [attrValProbe, h]

lemma extractS_stub_blank (x : String) (h : pyStrip x = "") :
    extractS (stubReviewEnvelope x) = "RunResult()" := by
  have hv := attrValProbe_str_blank x h
  have hesc : probeEscaped "RunResult()" = Option.none := by decide
  have hm1 : probeMarker "Final output (str):\n" "RunResult()" = Option.none := by decide
  have hm2 : probeMarker "Final output:\n" "RunResult()" = Option.none := by decide
  have hstr : pyStrip "RunResult()" = "RunResult()" := by decide
  simp [extractS, extract_text, stubReviewEnvelope, probeAttrs, candidate_attrs,
    pyGetAttr, dictGet, hv, step2Probe, step3Probe, pyStr, pyRepr, hesc, hm1, hm2,
    jsonDumps, hstr]

lemma extractS_stub_nonblank (x : String) (h : ¬ pyStrip x = "") :
    extractS (stubReviewEnvelope x) = pyStrip x := by
  simp [extractS, extract_text, stubReviewEnvelope, probeAttrs, candidate_attrs,
    pyGetAttr, dictGet, attrValProbe, h]

/-- C9: with the deterministic stub reviewer that hands back its input
unchanged, the guardrail review step (reviewer call, text extraction, and the
empty/leak pass-through check) is idempotent. -/
theorem review_stub_idem (x : String) : reviewStub (reviewStub x) = reviewStub x := by
  by_cases h : pyStrip x = ""
  · have hx : reviewStub x = x := by
      have hc : pyIn "runresult" (pyLower "RunResult()") = true := by decide
      simp [reviewStub, extractS_stub_blank x h, guardStep, hc]
    rw [hx]
    exact hx
  · have he := extractS_stub_nonblank x h
    by_cases hcond : ((pyStrip x == "") || pyIn "runresult" (pyLower (pyStrip x))) = true
    · have hx : reviewStub x = x := by
        simp [reviewStub, he, guardStep, hcond]
      rw [hx]
      exact hx
    · have hb : ((pyStrip x == "") || pyIn "runresult" (pyLower (pyStrip x))) = false := by
        cases hc : ((pyStrip x == "") || pyIn "runresult" (pyLower (pyStrip x)))
        · rfl
        · exact absurd hc hcond
      have hx : reviewStub x = pyStrip x := by
        simp [reviewStub, he, guardStep, hb]
      rw [hx]
      have h2 : ¬ pyStrip (pyStrip x) = "" := by
        rw [pyStrip_idem]
        intro h0
        rw [h0] at hb
        simp at hb
      have he2 : extractS (stubReviewEnvelope (pyStrip x)) = pyStrip x := by
        rw [extractS_stub_nonblank (pyStrip x) h2, pyStrip_idem]
      simp [reviewStub, he2, guardStep, hb]
